import Mathlib

/-!
Shallow embedding of `src/files/github_client.py` (a GitHub API client with
a hand-written retry loop, an md5-keyed TTL response cache, decorator-based
memoization, and create-vs-update upload disambiguation).

The network is modelled as an oracle: a list of `NetOutcome`s consumed one
per physical `session.request` / `session.get` call.  Time is a `Nat`
supplied in the environment (`datetime.now()` reads it); the caller advances
it between calls.  `requests.Response` is modelled by `Response` below:
`status` is `status_code`, `body` is the result of `.json()` (`none` when
`.json()` would raise), `content` is the raw byte payload `.content`.
-/

/-! ### Python values and their `repr`/`str`

The source builds cache keys from `str(args)`/`str(kwargs)` of Python
values (strings, ints, bools, None, lists, tuples, dicts), so we embed that
fragment of Python's value universe together with its `repr`.  Strings are
assumed to contain no quotes or escapes (true of every string the client
ever puts in `kwargs`). -/

mutual
inductive PyVal where
  | pstr (s : String)
  | pint (n : Int)
  | pbool (b : Bool)
  | pnone
  | plist (xs : PyList)
  | ptup (xs : PyList)
  | pdict (fs : PyFields)
inductive PyList where
  | nil
  | cons (x : PyVal) (xs : PyList)
inductive PyFields where
  | fnil
  | fcons (k : String) (v : PyVal) (fs : PyFields)
end

mutual
/-- Python `repr` of a value (ASCII strings without quotes assumed). -/
def pyRepr : PyVal → String
  | .pstr s => "\x27" ++ s ++ "\x27"
  | .pint n => toString n
  | .pbool b => if b then "True" else "False"
  | .pnone => "None"
  | .plist xs => "[" ++ pyReprList xs ++ "]"
  | .ptup .nil => "()"
  | .ptup (.cons x .nil) => "(" ++ pyRepr x ++ ",)"
  | .ptup xs => "(" ++ pyReprList xs ++ ")"
  | .pdict fs => "\x7b" ++ pyReprFields fs ++ "\x7d"
/-- comma-separated reprs of the elements of a list/tuple -/
def pyReprList : PyList → String
  | .nil => ""
  | .cons x .nil => pyRepr x
  | .cons x xs => pyRepr x ++ ", " ++ pyReprList xs
/-- comma-separated `'key': repr(value)` items of a dict -/
def pyReprFields : PyFields → String
  | .fnil => ""
  | .fcons k v .fnil => "\x27" ++ k ++ "\x27: " ++ pyRepr v
  | .fcons k v fs => "\x27" ++ k ++ "\x27: " ++ pyRepr v ++ ", " ++ pyReprFields fs
end

/-- Python `str` of a value: identical to `repr` except on strings. -/
def pyStr : PyVal → String
  | .pstr s => s
  | v => pyRepr v

/-- length of an embedded Python list -/
def PyList.length : PyList → Nat
  | .nil => 0
  | .cons _ xs => xs.length + 1

/-- number of entries of an embedded Python dict -/
def PyFields.length : PyFields → Nat
  | .fnil => 0
  | .fcons _ _ fs => fs.length + 1

/-- the items of a dict as an assoc list (used to state "same dict") -/
def PyFields.toList : PyFields → List (String × PyVal)
  | .fnil => []
  | .fcons k v fs => (k, v) :: fs.toList

/-- Python dict lookup `d.get(k)`: `none` when the key is absent. -/
def PyFields.get : PyFields → String → Option PyVal
  | .fnil, _ => none
  | .fcons k v fs, key => if k = key then some v else fs.get key

/-- Python truthiness of the embedded values. -/
def pyTruthy : PyVal → Bool
  | .pstr s => s ≠ ""
  | .pint n => n ≠ 0
  | .pbool b => b
  | .pnone => false
  | .plist xs => xs.length ≠ 0
  | .ptup xs => xs.length ≠ 0
  | .pdict fs => fs.length ≠ 0

/-- `d.get(k)` on a value expected to be a dict; non-dicts have no `.get`
(the source only calls `.get` on parsed JSON objects). -/
def pyGet (v : PyVal) (key : String) : Option PyVal :=
  match v with
  | .pdict fs => fs.get key
  | _ => none

/-- Python indexing `v[k]` for string keys: `none` models the `KeyError` /
`TypeError` that the surrounding bare `except` of the source turns into the
operation's failure value. -/
def pyIndex (v : PyVal) (key : String) : Option PyVal := pyGet v key

/-! ### Base64 (`base64.b64encode` / `b64decode`) -/

/-- the base64 alphabet -/
def b64Alphabet : List Char :=
  "ABCDEFGHIJKLMNOPQRSTUVWXYZabcdefghijklmnopqrstuvwxyz0123456789+/".data

/-- the base64 digit for a 6-bit value -/
def b64Char (n : Nat) : Char := b64Alphabet.getD n 'A'

/-- `base64.b64encode(bytes).decode('utf-8')` -/
def b64Encode : List Nat → String
  | [] => ""
  | [a] =>
    String.mk [b64Char (a / 4), b64Char (a % 4 * 16)] ++ "=="
  | [a, b] =>
    String.mk [b64Char (a / 4), b64Char (a % 4 * 16 + b / 16), b64Char (b % 16 * 4)] ++ "="
  | a :: b :: c :: rest =>
    String.mk [b64Char (a / 4), b64Char (a % 4 * 16 + b / 16),
               b64Char (b % 16 * 4 + c / 64), b64Char (c % 64)] ++ b64Encode rest

/-- index of a char in the base64 alphabet -/
def b64Val (c : Char) : Option Nat :=
  b64Alphabet.findIdx? (· = c)

/-- decode groups of four base64 digits; `=` only in the final group -/
def b64DecodeGroups : List Char → Option (List Nat)
  | [] => some []
  | w :: x :: y :: z :: rest => do
    let vw ← b64Val w
    let vx ← b64Val x
    if z = '=' then
      if rest ≠ [] then none
      else if y = '=' then
        some [vw * 4 + vx / 16]
      else do
        let vy ← b64Val y
        some [vw * 4 + vx / 16, vx % 16 * 16 + vy / 4]
    else do
      let vy ← b64Val y
      let vz ← b64Val z
      let tail ← b64DecodeGroups rest
      some ([vw * 4 + vx / 16, vx % 16 * 16 + vy / 4, vy % 4 * 64 + vz] ++ tail)
  | _ => none

/-- `base64.b64decode(s)`: characters outside the alphabet and `=` are
discarded first (Python's `validate=False` default); `none` models the
`binascii.Error` raised on malformed input. -/
def b64Decode (s : String) : Option (List Nat) :=
  b64DecodeGroups (s.data.filter fun c => c ∈ b64Alphabet ∨ c = '=')

/-! ### MD5 (`hashlib.md5(...).hexdigest()`)

The cache keys of the source are literally md5 hex digests of stringified
arguments, so the hash is embedded in full (RFC 1321). -/

/-- the 64 MD5 round constants `floor(2^32 * abs(sin(i+1)))` -/
def md5K : List Nat := [
  0xd76aa478, 0xe8c7b756, 0x242070db, 0xc1bdceee, 0xf57c0faf, 0x4787c62a, 0xa8304613, 0xfd469501,
  0x698098d8, 0x8b44f7af, 0xffff5bb1, 0x895cd7be, 0x6b901122, 0xfd987193, 0xa679438e, 0x49b40821,
  0xf61e2562, 0xc040b340, 0x265e5a51, 0xe9b6c7aa, 0xd62f105d, 0x02441453, 0xd8a1e681, 0xe7d3fbc8,
  0x21e1cde6, 0xc33707d6, 0xf4d50d87, 0x455a14ed, 0xa9e3e905, 0xfcefa3f8, 0x676f02d9, 0x8d2a4c8a,
  0xfffa3942, 0x8771f681, 0x6d9d6122, 0xfde5380c, 0xa4beea44, 0x4bdecfa9, 0xf6bb4b60, 0xbebfbc70,
  0x289b7ec6, 0xeaa127fa, 0xd4ef3085, 0x04881d05, 0xd9d4d039, 0xe6db99e5, 0x1fa27cf8, 0xc4ac5665,
  0xf4292244, 0x432aff97, 0xab9423a7, 0xfc93a039, 0x655b59c3, 0x8f0ccc92, 0xffeff47d, 0x85845dd1,
  0x6fa87e4f, 0xfe2ce6e0, 0xa3014314, 0x4e0811a1, 0xf7537e82, 0xbd3af235, 0x2ad7d2bb, 0xeb86d391]

/-- the MD5 per-round left-rotation amounts -/
def md5S : List Nat := [
  7, 12, 17, 22, 7, 12, 17, 22, 7, 12, 17, 22, 7, 12, 17, 22,
  5, 9, 14, 20, 5, 9, 14, 20, 5, 9, 14, 20, 5, 9, 14, 20,
  4, 11, 16, 23, 4, 11, 16, 23, 4, 11, 16, 23, 4, 11, 16, 23,
  6, 10, 15, 21, 6, 10, 15, 21, 6, 10, 15, 21, 6, 10, 15, 21]

/-- 32-bit left rotation -/
def rotl32 (x n : Nat) : Nat :=
  ((x <<< n) % 4294967296) ||| ((x % 4294967296) >>> (32 - n))

/-- little-endian bytes of a 32-bit word -/
def le4 (n : Nat) : List Nat :=
  [n % 256, n / 256 % 256, n / 65536 % 256, n / 16777216 % 256]

/-- little-endian bytes of a 64-bit word -/
def le8 (n : Nat) : List Nat :=
  le4 (n % 4294967296) ++ le4 (n / 4294967296 % 4294967296)

/-- MD5 padding: append `0x80`, zeros to 56 mod 64, then the bit length. -/
def md5Pad (msg : List Nat) : List Nat :=
  let len := msg.length
  let zeros := (56 - (len + 1) % 64 + 64) % 64
  msg ++ [0x80] ++ List.replicate zeros 0 ++ le8 (len * 8 % 18446744073709551616)

/-- the `i`-th little-endian 32-bit word of a 64-byte block -/
def leWord (bs : List Nat) (i : Nat) : Nat :=
  bs.getD (4 * i) 0 + 256 * bs.getD (4 * i + 1) 0 +
    65536 * bs.getD (4 * i + 2) 0 + 16777216 * bs.getD (4 * i + 3) 0

/-- one MD5 compression round -/
def md5Round (block : List Nat) (st : Nat × Nat × Nat × Nat) (i : Nat) :
    Nat × Nat × Nat × Nat :=
  let (a, b, c, d) := st
  let f :=
    if i < 16 then (b &&& c) ||| ((4294967295 ^^^ b) &&& d)
    else if i < 32 then (d &&& b) ||| ((4294967295 ^^^ d) &&& c)
    else if i < 48 then b ^^^ c ^^^ d
    else c ^^^ (b ||| (4294967295 ^^^ d))
  let g :=
    if i < 16 then i
    else if i < 32 then (5 * i + 1) % 16
    else if i < 48 then (3 * i + 5) % 16
    else 7 * i % 16
  let tmp := (a + f + md5K.getD i 0 + leWord block g) % 4294967296
  (d, (b + rotl32 tmp (md5S.getD i 0)) % 4294967296, b, c)

/-- MD5 compression of a single 64-byte block -/
def md5Step (block : List Nat) (h : Nat × Nat × Nat × Nat) : Nat × Nat × Nat × Nat :=
  let (a0, b0, c0, d0) := h
  let (a, b, c, d) := (List.range 64).foldl (md5Round block) (a0, b0, c0, d0)
  ((a0 + a) % 4294967296, (b0 + b) % 4294967296,
   (c0 + c) % 4294967296, (d0 + d) % 4294967296)

/-- fold the MD5 compression over consecutive 64-byte blocks; the first
argument bounds the number of blocks (structural recursion so that the
kernel can evaluate digests) -/
def md5BlocksFuel : Nat → List Nat → Nat × Nat × Nat × Nat → Nat × Nat × Nat × Nat
  | 0, _, h => h
  | _ + 1, [], h => h
  | fuel + 1, l@(_ :: _), h => md5BlocksFuel fuel (l.drop 64) (md5Step (l.take 64) h)

/-- fold the MD5 compression over all 64-byte blocks of a padded message -/
def md5Blocks (l : List Nat) (h : Nat × Nat × Nat × Nat) : Nat × Nat × Nat × Nat :=
  md5BlocksFuel (l.length / 64 + 1) l h

/-- hex digit for a 4-bit value -/
def hexChar (n : Nat) : Char := "0123456789abcdef".data.getD n '0'

/-- two-character lowercase hex of a byte -/
def byteHex (b : Nat) : String := String.mk [hexChar (b / 16), hexChar (b % 16)]

/-- `hashlib.md5(bytes).hexdigest()` -/
def md5Hex (msg : List Nat) : String :=
  let (a, b, c, d) :=
    md5Blocks (md5Pad msg) (0x67452301, 0xefcdab89, 0x98badcfe, 0x10325476)
  String.join ((le4 a ++ le4 b ++ le4 c ++ le4 d).map byteHex)

/-- UTF-8 bytes of an ASCII string (every string the client hashes is ASCII) -/
def strBytes (s : String) : List Nat := s.data.map Char.toNat

/-! ### The client model

`Response` models `requests.Response`; `NetOutcome` is what one physical
`session.request` / `session.get` call produces: a response, a
`requests.exceptions.Timeout`, a `requests.exceptions.ConnectionError`, or
any other unexpected exception.  The environment carries the current time,
the stream of network outcomes, and a log of the physical requests made
(one `(method, url)` entry per physical attempt). -/

structure Response where
  status : Nat
  body : Option PyVal := none
  content : List Nat := []

inductive NetOutcome where
  | resp (r : Response)
  | timeout
  | connErr
  | exn

structure Env where
  now : Nat
  net : List NetOutcome
  log : List (String × String) := []

/-- pop the next network outcome; an exhausted oracle behaves like an
unexpected exception (the theorems always supply enough outcomes) -/
def netPop (env : Env) : NetOutcome × Env :=
  match env.net with
  | [] => (.exn, env)
  | o :: rest => (o, { env with net := rest })

/-- a value stored in `self.cache`: `_make_request` stores `Response`s under
md5-hex keys, `get_repo_by_name` stores parsed JSON under `repo_<name>` keys -/
inductive CVal where
  | respVal (r : Response)
  | jsonVal (v : PyVal)

structure ClientState where
  username : String
  cache : List (String × CVal × Nat) := []
  requestCount : Nat := 0
  cachedRequests : Nat := 0
  cacheExpiry : Nat := 300

/-- `self.base_url` -/
def baseUrl : String := "https://api.github.com"

/-- lookup in `self.cache` (a Python dict keyed by strings) -/
def cacheLookup (c : List (String × CVal × Nat)) (k : String) : Option (CVal × Nat) :=
  match c with
  | [] => none
  | (k2, v, t) :: rest => if k2 = k then some (v, t) else cacheLookup rest k

/-- dict assignment `self.cache[k] = (v, now)` -/
def cacheSet (c : List (String × CVal × Nat)) (k : String) (v : CVal) (t : Nat) :
    List (String × CVal × Nat) :=
  (k, v, t) :: c.filter fun e => e.1 ≠ k

/-- the cache key of `_make_request`:
`hashlib.md5((url + str(kwargs)).encode()).hexdigest()` — computed before
the default timeout is inserted into `kwargs` -/
def cacheKeyOf (url : String) (kwargs : PyFields) : String :=
  md5Hex (strBytes (url ++ pyRepr (.pdict kwargs)))

/-- ASCII uppercase of a character (structural, so the kernel can reduce it) -/
def charUpper (c : Char) : Char :=
  if 'a' ≤ c ∧ c ≤ 'z' then Char.ofNat (c.toNat - 32) else c

/-- Python `method.upper()` for the ASCII method names used by the client -/
def strUpper (s : String) : String := String.mk (s.data.map charUpper)

/-- whether a cache key is computed: `use_cache and method.upper() == 'GET'` -/
def ckOf (method url : String) (useCache : Bool) (kwargs : PyFields) : Option String :=
  if useCache && (strUpper method == "GET") then some (cacheKeyOf url kwargs) else none

/-- the cache probe at the top of `_make_request`: a stored response that is
younger than `cache_expiry` is served directly.  (Values stored under
`repo_<name>` keys can never be probed here: those keys start with `r`,
while md5 hex digests contain only `0-9a-f`.) -/
def cacheProbe (cs : ClientState) (env : Env) (method url : String)
    (useCache : Bool) (kwargs : PyFields) : Option Response :=
  match ckOf method url useCache kwargs with
  | none => none
  | some k =>
    match cacheLookup cs.cache k with
    | some (.respVal r, t) => if env.now - t < cs.cacheExpiry then some r else none
    | _ => none

/-- statuses the `_make_request` loop retries:
`response.status_code in [429, 500, 502, 503, 504]` -/
def retryable (status : Nat) : Bool :=
  status = 429 || status = 500 || status = 502 || status = 503 || status = 504

/-- the outcome of one `_make_request` call -/
structure DispatchResult where
  result : Option Response
  cs : ClientState
  env : Env
  sleeps : List Nat
  attempts : Nat

/-- the `for attempt in range(max_retries)` loop of `_make_request`.
`fuel` is the number of attempts still available (`max_retries - attempt`);
`attempt < max_retries - 1` is `0 < fuel - 1`.  Each iteration increments
`request_count`, performs one physical request, caches a `< 400` response
when a cache key exists, and then classifies the status. -/
def requestLoop (method url : String) (ck : Option String) :
    Nat → Nat → ClientState → Env → DispatchResult
  | 0, _, cs, env => ⟨none, cs, env, [], 0⟩
  | fuel + 1, attempt, cs, env =>
    let cs1 : ClientState := { cs with requestCount := cs.requestCount + 1 }
    let (o, env1) := netPop env
    let env2 : Env := { env1 with log := env1.log ++ [(method, url)] }
    match o with
    | .resp r =>
      let cs2 : ClientState :=
        match ck with
        | some k =>
          if r.status < 400 then { cs1 with cache := cacheSet cs1.cache k (.respVal r) env2.now }
          else cs1
        | none => cs1
      if r.status < 400 then ⟨some r, cs2, env2, [], 1⟩
      else if r.status = 401 then ⟨some r, cs2, env2, [], 1⟩
      else if r.status = 403 then ⟨some r, cs2, env2, [], 1⟩
      else if retryable r.status then
        if 0 < fuel then
          let w := 2 ^ attempt + 1
          let d := requestLoop method url ck fuel (attempt + 1) cs2 env2
          ⟨d.result, d.cs, d.env, w :: d.sleeps, d.attempts + 1⟩
        else ⟨some r, cs2, env2, [], 1⟩
      else ⟨some r, cs2, env2, [], 1⟩
    | .timeout =>
      if 0 < fuel then
        let w := 2 ^ attempt + 1
        let d := requestLoop method url ck fuel (attempt + 1) cs1 env2
        ⟨d.result, d.cs, d.env, w :: d.sleeps, d.attempts + 1⟩
      else ⟨none, cs1, env2, [], 1⟩
    | .connErr =>
      if 0 < fuel then
        let w := 2 ^ attempt + 1
        let d := requestLoop method url ck fuel (attempt + 1) cs1 env2
        ⟨d.result, d.cs, d.env, w :: d.sleeps, d.attempts + 1⟩
      else ⟨none, cs1, env2, [], 1⟩
    | .exn => ⟨none, cs1, env2, [], 1⟩

/-- `GitHubClient._make_request`: probe the cache (for cached `GET`s), then
run the retry loop with `max_retries = 3` starting at `attempt = 0`. -/
def makeRequest (method url : String) (useCache : Bool) (kwargs : PyFields)
    (cs : ClientState) (env : Env) : DispatchResult :=
  match cacheProbe cs env method url useCache kwargs with
  | some r => ⟨some r, { cs with cachedRequests := cs.cachedRequests + 1 }, env, [], 0⟩
  | none => requestLoop method url (ckOf method url useCache kwargs) 3 0 cs env

/-! ### Content operations -/

/-- `len(v)`: `none` models the `TypeError` on unsized values. -/
def pyLen : PyVal → Option Nat
  | .pstr s => some s.length
  | .plist xs => some xs.length
  | .ptup xs => some xs.length
  | .pdict fs => some fs.length
  | _ => none

/-- Python `v == s` for an optional value against a string literal (used
for `file_info.get('type') == 'file'`; a missing key gives `None == 'file'`,
which is `False`). -/
def pyEqStr (v : Option PyVal) (s : String) : Bool :=
  match v with
  | some (.pstr t) => t = s
  | _ => false

/-- the contents URL `f"{base_url}/repos/{username}/{repo}/contents/{path}"` -/
def contentsUrl (cs : ClientState) (repo path : String) : String :=
  baseUrl ++ "/repos/" ++ cs.username ++ "/" ++ repo ++ "/contents/" ++ path

/-- `GitHubClient.get_repo_by_name`: a hand-inlined cache under the key
`repo_<name>`, then an uncached `GET`; a `200` response is parsed and
cached, anything else (or a `json()` failure, via the bare `except`)
gives `None`. -/
def getRepoByName (name : String) (cs : ClientState) (env : Env) :
    Option PyVal × ClientState × Env :=
  let key := "repo_" ++ name
  let network : Option PyVal × ClientState × Env :=
    let d := makeRequest "GET" (baseUrl ++ "/repos/" ++ cs.username ++ "/" ++ name)
      false .fnil cs env
    match d.result with
    | some r =>
      if r.status = 200 then
        match r.body with
        | some p =>
          (some p, { d.cs with cache := cacheSet d.cs.cache key (.jsonVal p) d.env.now }, d.env)
        | none => (none, d.cs, d.env)
      else (none, d.cs, d.env)
    | none => (none, d.cs, d.env)
  match cacheLookup cs.cache key with
  | some (.jsonVal p, t) =>
    if env.now - t < cs.cacheExpiry then (some p, cs, env) else network
  | _ => network

/-- `GitHubClient._clear_repo_cache`: delete every cache key starting with
`repo_`. -/
def clearRepoCache (cs : ClientState) : ClientState :=
  { cs with cache := cs.cache.filter fun e => ¬ e.1.startsWith "repo_" }

/-- `GitHubClient.create_repo`: `POST /user/repos`; on `201` parse the body
and clear the repo cache; on `422` fall back to `get_repo_by_name`;
otherwise `None`. -/
def createRepo (name : String) (priv : Bool) (cs : ClientState) (env : Env) :
    Option PyVal × ClientState × Env :=
  let data : PyVal := .pdict (.fcons "name" (.pstr name)
    (.fcons "private" (.pbool priv) (.fcons "auto_init" (.pbool true) .fnil)))
  let d := makeRequest "POST" (baseUrl ++ "/user/repos") false
    (.fcons "json" data .fnil) cs env
  match d.result with
  | none => (none, d.cs, d.env)
  | some r =>
    if r.status = 201 then
      match r.body with
      | some info => (some info, clearRepoCache d.cs, d.env)
      | none => (none, d.cs, d.env)
    else if r.status = 422 then getRepoByName name d.cs d.env
    else (none, d.cs, d.env)

/-- `GitHubClient._update_existing_file`: an uncached `GET` for the current
`sha`, then a `PUT` carrying it; only a `200` `PUT` response is a success. -/
def updateExistingFile (repo path : String) (content : List Nat) (message : String)
    (cs : ClientState) (env : Env) : Option PyVal × ClientState × Env :=
  let url := contentsUrl cs repo path
  let g := makeRequest "GET" url false .fnil cs env
  match g.result with
  | some gr =>
    if gr.status = 200 then
      match gr.body >>= (pyIndex · "sha") with
      | some sha =>
        let data : PyVal := .pdict (.fcons "message" (.pstr message)
          (.fcons "content" (.pstr (b64Encode content)) (.fcons "sha" sha .fnil)))
        let p := makeRequest "PUT" url false (.fcons "json" data .fnil) g.cs g.env
        match p.result with
        | some pr =>
          if pr.status = 200 then
            match pr.body with
            | some b => (some b, p.cs, p.env)
            | none => (none, p.cs, p.env)
          else (none, p.cs, p.env)
        | none => (none, p.cs, p.env)
      | none => (none, g.cs, g.env)
    else (none, g.cs, g.env)
  | none => (none, g.cs, g.env)

/-- `GitHubClient.upload_file`: `PUT` without a `sha`; `201` is a create,
`422` switches to the update path, anything else is `None`. -/
def uploadFile (repo path : String) (content : List Nat) (message : String)
    (cs : ClientState) (env : Env) : Option PyVal × ClientState × Env :=
  let url := contentsUrl cs repo path
  let data : PyVal := .pdict (.fcons "message" (.pstr message)
    (.fcons "content" (.pstr (b64Encode content)) .fnil))
  let d := makeRequest "PUT" url false (.fcons "json" data .fnil) cs env
  match d.result with
  | none => (none, d.cs, d.env)
  | some r =>
    if r.status = 201 then
      match r.body with
      | some b => (some b, d.cs, d.env)
      | none => (none, d.cs, d.env)
    else if r.status = 422 then updateExistingFile repo path content message d.cs d.env
    else (none, d.cs, d.env)

/-- `GitHubClient.delete_file`: a `DELETE` carrying the caller's `sha`;
`True` exactly on a `200` response. -/
def deleteFile (repo path sha message : String) (cs : ClientState) (env : Env) :
    Bool × ClientState × Env :=
  let data : PyVal := .pdict (.fcons "message" (.pstr message)
    (.fcons "sha" (.pstr sha) .fnil))
  let d := makeRequest "DELETE" (contentsUrl cs repo path) false
    (.fcons "json" data .fnil) cs env
  match d.result with
  | none => (false, d.cs, d.env)
  | some r => (decide (r.status = 200), d.cs, d.env)

/-- the retry loop of `GitHubClient._download_from_raw_url`: its own
3-attempt budget over `session.get`; timeouts back off `2^attempt + 2`,
retryable statuses `2^attempt + 2`, any other exception `2^attempt + 1`
(and, unlike `_make_request`, is retried); it never touches the client's
counters or cache. -/
def rawLoop (url : String) : Nat → Nat → Env → Option (List Nat) × Env × List Nat
  | 0, _, env => (none, env, [])
  | fuel + 1, attempt, env =>
    let (o, env1) := netPop env
    let env2 : Env := { env1 with log := env1.log ++ [("GET", url)] }
    match o with
    | .resp r =>
      if r.status = 200 then (some r.content, env2, [])
      else if retryable r.status then
        if 0 < fuel then
          let (res, env3, ws) := rawLoop url fuel (attempt + 1) env2
          (res, env3, (2 ^ attempt + 2) :: ws)
        else (none, env2, [])
      else (none, env2, [])
    | .timeout =>
      if 0 < fuel then
        let (res, env3, ws) := rawLoop url fuel (attempt + 1) env2
        (res, env3, (2 ^ attempt + 2) :: ws)
      else (none, env2, [])
    | .connErr =>
      if 0 < fuel then
        let (res, env3, ws) := rawLoop url fuel (attempt + 1) env2
        (res, env3, (2 ^ attempt + 1) :: ws)
      else (none, env2, [])
    | .exn =>
      if 0 < fuel then
        let (res, env3, ws) := rawLoop url fuel (attempt + 1) env2
        (res, env3, (2 ^ attempt + 1) :: ws)
      else (none, env2, [])

/-- `GitHubClient._download_from_raw_url` -/
def downloadFromRawUrl (url : String) (env : Env) : Option (List Nat) × Env :=
  let (res, env2, _) := rawLoop url 3 0 env
  (res, env2)

/-- `GitHubClient.download_file`: a cached metadata `GET`; on `200` and
`type == 'file'`, fetch via a truthy `download_url` (its own retry loop) or
else decode the inline base64 `content` field; non-files and decode
failures give `None`. -/
def downloadFile (repo path : String) (cs : ClientState) (env : Env) :
    Option (List Nat) × ClientState × Env :=
  let d := makeRequest "GET" (contentsUrl cs repo path) true .fnil cs env
  match d.result with
  | none => (none, d.cs, d.env)
  | some r =>
    if r.status ≠ 200 then (none, d.cs, d.env)
    else
      match r.body with
      | none => (none, d.cs, d.env)
      | some fi =>
        if pyEqStr (pyGet fi "type") "file" then
          let dl := pyGet fi "download_url"
          match dl with
          | some v =>
            if pyTruthy v then
              match v with
              | .pstr u =>
                let (res, env2) := downloadFromRawUrl u d.env
                (res, d.cs, env2)
              | _ => (none, d.cs, d.env)
            else
              downloadInline fi d.cs d.env
          | none => downloadInline fi d.cs d.env
        else (none, d.cs, d.env)
where
  /-- the `content` fallback branch of `download_file` -/
  downloadInline (fi : PyVal) (cs : ClientState) (env : Env) :
      Option (List Nat) × ClientState × Env :=
    match pyGet fi "content" with
    | some ce =>
      if pyTruthy ce then
        match ce with
        | .pstr c =>
          match b64Decode c with
          | some bytes => (some bytes, cs, env)
          | none => (none, cs, env)
        | _ => (none, cs, env)
      else (none, cs, env)
    | none => (none, cs, env)

/-! ### The `cache_result` decorator and `list_files`

`cache_result`'s `cache = {}` is created once per decorated function at
class-definition time, so it is process-wide state shared by every
`GitHubClient` instance; its key `md5(str(args) + str(kwargs))` does not
include `self`.  `list_files` is modelled for the positional call
`list_files(repo, path)`, so `args = (repo, path)` and `kwargs = {}`. -/

/-- lookup in a decorator cache -/
def decLookup (c : List (String × PyVal × Nat)) (k : String) : Option (PyVal × Nat) :=
  match c with
  | [] => none
  | (k2, v, t) :: rest => if k2 = k then some (v, t) else decLookup rest k

/-- store into a decorator cache -/
def decSet (c : List (String × PyVal × Nat)) (k : String) (v : PyVal) (t : Nat) :
    List (String × PyVal × Nat) :=
  (k, v, t) :: c.filter fun e => e.1 ≠ k

/-- the decorator cache key for `list_files(repo, path)`:
`md5(str((repo, path)) + str({}))` -/
def listFilesKey (repo path : String) : String :=
  md5Hex (strBytes (pyRepr (.ptup (.cons (.pstr repo) (.cons (.pstr path) .nil)))
    ++ pyRepr (.pdict .fnil)))

/-- the empty Python list `[]` -/
def pyEmptyList : PyVal := .plist .nil

/-- the undecorated body of `GitHubClient.list_files` -/
def listFilesBody (repo path : String) (cs : ClientState) (env : Env) :
    PyVal × ClientState × Env :=
  match getRepoByName repo cs env with
  | (none, cs1, env1) => (pyEmptyList, cs1, env1)
  | (some ri, cs1, env1) =>
    if ¬ pyTruthy ri then (pyEmptyList, cs1, env1)
    else
      let branch := pyStr ((pyGet ri "default_branch").getD (.pstr "main"))
      let url := contentsUrl cs1 repo path ++ "?ref=" ++ branch
      let d := makeRequest "GET" url true .fnil cs1 env1
      match d.result with
      | none => (pyEmptyList, d.cs, d.env)
      | some r =>
        if r.status = 200 then
          match r.body with
          | some files =>
            match pyLen files with
            | some _ => (files, d.cs, d.env)
            | none => (pyEmptyList, d.cs, d.env)
          | none => (pyEmptyList, d.cs, d.env)
        else (pyEmptyList, d.cs, d.env)

/-- `GitHubClient.list_files` including its `@cache_result(180)` wrapper;
`g` is the decorator's process-wide cache.  The body's result is a list,
never `None`, so it is always stored. -/
def listFiles (g : List (String × PyVal × Nat)) (repo path : String)
    (cs : ClientState) (env : Env) :
    PyVal × List (String × PyVal × Nat) × ClientState × Env :=
  let key := listFilesKey repo path
  match decLookup g key with
  | some (v, t) =>
    if env.now - t < 180 then (v, g, cs, env)
    else
      let (res, cs1, env1) := listFilesBody repo path cs env
      (res, decSet g key res env1.now, cs1, env1)
  | none =>
    let (res, cs1, env1) := listFilesBody repo path cs env
    (res, decSet g key res env1.now, cs1, env1)

/-! ### Usage statistics and lifecycle -/

/-- the snapshot returned by `GitHubClient.get_api_usage_stats` -/
structure UsageStats where
  totalRequests : Nat
  cachedRequests : Nat
  hitRate : ℚ
  deriving DecidableEq

/-- `GitHubClient.get_api_usage_stats`:
`cached_requests / request_count if request_count > 0 else 0` -/
def getApiUsageStats (cs : ClientState) : UsageStats :=
  ⟨cs.requestCount, cs.cachedRequests,
    if cs.requestCount > 0 then (cs.cachedRequests : ℚ) / cs.requestCount else 0⟩

/-- `GitHubClient.clear_cache` -/
def clearCache (cs : ClientState) : ClientState := { cs with cache := [] }

/-- `GitHubClient.close`: only `self.session.close()` — the cache, the
decorator caches and the counters are untouched. -/
def closeClient (cs : ClientState) : ClientState := cs

/-! ### Theorems -/

/-- a retryable status is neither a success nor an auth failure -/
theorem retryable_facts {s : Nat} (h : retryable s = true) :
    ¬ s < 400 ∧ s ≠ 401 ∧ s ≠ 403 := by
  simp only [retryable, Bool.or_eq_true, decide_eq_true_eq] at h
  rcases h with ((((h | h) | h) | h) | h) <;> subst h <;> omega

/-- `"GET".upper() == "GET"` -/
theorem get_upper_eq : (strUpper "GET" == "GET") = true := by decide

/-- C1, counterexample.  The claim says that at most 3 consecutive
retryable responses followed by a success still lead to success.  With
exactly 3 consecutive 503s followed by a 200, `_make_request` exhausts its
3-attempt budget on the 503s and returns the third 503; the 200 is never
requested (it is still in the oracle). -/
theorem c1_counterexample :
    let env : Env := { now := 0, net := [.resp ⟨503, none, [1]⟩, .resp ⟨503, none, [2]⟩,
      .resp ⟨503, none, [3]⟩, .resp ⟨200, none, [9]⟩] }
    let d := makeRequest "GET" "https://api.github.com/user/repos?per_page=100" false .fnil
      { username := "u" } env
    d.result.map Response.status = some 503 ∧
    d.result.map Response.content = some [3] ∧
    d.attempts = 3 ∧
    d.sleeps = [2, 3] ∧
    d.env.net.length = 1 := by
  decide

/-- C1, amended: a response with status in `{429, 500, 502, 503, 504}` is
retried with a backoff delay of `2^attempt + 1` seconds (attempt starting
at 0) under a budget of 3 total attempts: if at most **2** consecutive such
responses are followed by a success the call succeeds, and with 3
consecutive such responses the budget is exhausted, the call terminates
after exactly 3 physical attempts and returns the third (last) HTTP
response unmodified. -/
theorem c1_retry_backoff_amended
    (method url : String) (useCache : Bool) (kwargs : PyFields)
    (cs : ClientState) (env : Env)
    (hmiss : cacheProbe cs env method url useCache kwargs = none) :
    (∀ r rest, env.net = .resp r :: rest → r.status < 400 →
      (makeRequest method url useCache kwargs cs env).result = some r ∧
      (makeRequest method url useCache kwargs cs env).attempts = 1 ∧
      (makeRequest method url useCache kwargs cs env).sleeps = []) ∧
    (∀ r1 r rest, env.net = .resp r1 :: .resp r :: rest →
      retryable r1.status = true → r.status < 400 →
      (makeRequest method url useCache kwargs cs env).result = some r ∧
      (makeRequest method url useCache kwargs cs env).attempts = 2 ∧
      (makeRequest method url useCache kwargs cs env).sleeps = [2 ^ 0 + 1]) ∧
    (∀ r1 r2 r rest, env.net = .resp r1 :: .resp r2 :: .resp r :: rest →
      retryable r1.status = true → retryable r2.status = true → r.status < 400 →
      (makeRequest method url useCache kwargs cs env).result = some r ∧
      (makeRequest method url useCache kwargs cs env).attempts = 3 ∧
      (makeRequest method url useCache kwargs cs env).sleeps = [2 ^ 0 + 1, 2 ^ 1 + 1]) ∧
    (∀ r1 r2 r3 rest, env.net = .resp r1 :: .resp r2 :: .resp r3 :: rest →
      retryable r1.status = true → retryable r2.status = true → retryable r3.status = true →
      (makeRequest method url useCache kwargs cs env).result = some r3 ∧
      (makeRequest method url useCache kwargs cs env).attempts = 3 ∧
      (makeRequest method url useCache kwargs cs env).sleeps = [2 ^ 0 + 1, 2 ^ 1 + 1] ∧
      (makeRequest method url useCache kwargs cs env).env.net = rest) := by
  refine ⟨?_, ?_, ?_, ?_⟩
  · intro r rest hnet hok
    simp [makeRequest, hmiss, requestLoop, netPop, hnet, hok]
  · intro r1 r rest hnet h1 hok
    obtain ⟨hl1, h401, h403⟩ := retryable_facts h1
    simp [makeRequest, hmiss, requestLoop, netPop, hnet, hok, hl1, h401, h403, h1]
  · intro r1 r2 r rest hnet h1 h2 hok
    obtain ⟨hl1, h1401, h1403⟩ := retryable_facts h1
    obtain ⟨hl2, h2401, h2403⟩ := retryable_facts h2
    simp [makeRequest, hmiss, requestLoop, netPop, hnet, hok, hl1, h1401, h1403, h1,
      hl2, h2401, h2403, h2]
  · intro r1 r2 r3 rest hnet h1 h2 h3
    obtain ⟨hl1, h1401, h1403⟩ := retryable_facts h1
    obtain ⟨hl2, h2401, h2403⟩ := retryable_facts h2
    obtain ⟨hl3, h3401, h3403⟩ := retryable_facts h3
    simp [makeRequest, hmiss, requestLoop, netPop, hnet, hl1, h1401, h1403, h1,
      hl2, h2401, h2403, h2, hl3, h3401, h3403, h3]

/-- witness for `c1_retry_backoff_amended` at a concrete input: two 429s
then a 200 succeed after 3 attempts with backoff `[2, 3]`; three 503s
exhaust the budget and return the third 503. -/
theorem c1_retry_backoff_amended_witness :
    ((makeRequest "GET" "http://x" false .fnil { username := "u" }
      { now := 0, net := [.resp ⟨429, none, [1]⟩, .resp ⟨429, none, [2]⟩,
        .resp ⟨200, none, [9]⟩] }).result = some ⟨200, none, [9]⟩ ∧
     (makeRequest "GET" "http://x" false .fnil { username := "u" }
      { now := 0, net := [.resp ⟨429, none, [1]⟩, .resp ⟨429, none, [2]⟩,
        .resp ⟨200, none, [9]⟩] }).sleeps = [2 ^ 0 + 1, 2 ^ 1 + 1]) ∧
    ((makeRequest "POST" "http://x" false .fnil { username := "u" }
      { now := 0, net := [.resp ⟨503, none, [1]⟩, .resp ⟨503, none, [2]⟩,
        .resp ⟨503, none, [3]⟩] }).result = some ⟨503, none, [3]⟩ ∧
     (makeRequest "POST" "http://x" false .fnil { username := "u" }
      { now := 0, net := [.resp ⟨503, none, [1]⟩, .resp ⟨503, none, [2]⟩,
        .resp ⟨503, none, [3]⟩] }).attempts = 3) := by
  have ha := (c1_retry_backoff_amended "GET" "http://x" false .fnil { username := "u" }
    { now := 0, net := [.resp ⟨429, none, [1]⟩, .resp ⟨429, none, [2]⟩,
      .resp ⟨200, none, [9]⟩] } rfl).2.2.1
    ⟨429, none, [1]⟩ ⟨429, none, [2]⟩ ⟨200, none, [9]⟩ [] rfl (by decide) (by decide) (by decide)
  have hb := (c1_retry_backoff_amended "POST" "http://x" false .fnil { username := "u" }
    { now := 0, net := [.resp ⟨503, none, [1]⟩, .resp ⟨503, none, [2]⟩,
      .resp ⟨503, none, [3]⟩] } rfl).2.2.2
    ⟨503, none, [1]⟩ ⟨503, none, [2]⟩ ⟨503, none, [3]⟩ [] rfl (by decide) (by decide) (by decide)
  exact ⟨⟨ha.1, ha.2.2⟩, ⟨hb.1, hb.2.1⟩⟩

/-- C2: a dispatched request whose response has status 401 or 403 returns
that response after exactly one physical attempt, with no backoff sleep and
no further oracle consumption — and this holds at any point of the retry
loop, whatever budget remains. -/
theorem c2_auth_never_retried
    (method url : String) (useCache : Bool) (kwargs : PyFields)
    (cs : ClientState) (env : Env)
    (hmiss : cacheProbe cs env method url useCache kwargs = none) :
    (∀ r rest, env.net = .resp r :: rest → (r.status = 401 ∨ r.status = 403) →
      (makeRequest method url useCache kwargs cs env).result = some r ∧
      (makeRequest method url useCache kwargs cs env).attempts = 1 ∧
      (makeRequest method url useCache kwargs cs env).sleeps = [] ∧
      (makeRequest method url useCache kwargs cs env).env.net = rest) ∧
    (∀ fuel attempt cs2 env2 r rest, env2.net = .resp r :: rest →
      (r.status = 401 ∨ r.status = 403) →
      (requestLoop method url (ckOf method url useCache kwargs) (fuel + 1) attempt cs2 env2).result
        = some r ∧
      (requestLoop method url (ckOf method url useCache kwargs) (fuel + 1) attempt cs2 env2).attempts
        = 1) := by
  constructor
  · intro r rest hnet hauth
    rcases hauth with h | h <;>
      simp [makeRequest, hmiss, requestLoop, netPop, hnet, h]
  · intro fuel attempt cs2 env2 r rest hnet hauth
    rcases hauth with h | h <;>
      simp [requestLoop, netPop, hnet, h]

/-- witness for `c2_auth_never_retried`: a 401 with a full budget left is
returned after one attempt. -/
theorem c2_auth_never_retried_witness :
    (makeRequest "GET" "http://x" true .fnil { username := "u" }
      { now := 0, net := [.resp ⟨401, none, [4]⟩, .resp ⟨200, none, [9]⟩] }).result
      = some ⟨401, none, [4]⟩ ∧
    (makeRequest "GET" "http://x" true .fnil { username := "u" }
      { now := 0, net := [.resp ⟨401, none, [4]⟩, .resp ⟨200, none, [9]⟩] }).attempts = 1 := by
  have h := (c2_auth_never_retried "GET" "http://x" true .fnil { username := "u" }
    { now := 0, net := [.resp ⟨401, none, [4]⟩, .resp ⟨200, none, [9]⟩] } rfl).1
    ⟨401, none, [4]⟩ [.resp ⟨200, none, [9]⟩] rfl (Or.inl rfl)
  exact ⟨h.1, h.2.1⟩

/-- C3: a cached `GET` that succeeds on the network stores its response
under the request's cache key, and a second identical read issued while
that entry is within the TTL window returns the identical stored response
with zero network activity: the oracle and log are untouched, no physical
attempt is made, `request_count` is not incremented, and
`cached_requests` is incremented instead. -/
theorem c3_cache_hit_second_read
    (url : String) (kwargs : PyFields) (cs : ClientState) (env env2 : Env)
    (r : Response) (rest : List NetOutcome)
    (hmiss : cacheProbe cs env "GET" url true kwargs = none)
    (hnet : env.net = .resp r :: rest)
    (hok : r.status < 400)
    (hfresh : env2.now - env.now < cs.cacheExpiry) :
    let d1 := makeRequest "GET" url true kwargs cs env
    let d2 := makeRequest "GET" url true kwargs d1.cs env2
    d1.result = some r ∧
    d1.attempts = 1 ∧
    d2.result = some r ∧
    d2.attempts = 0 ∧
    d2.env = env2 ∧
    d2.cs.requestCount = d1.cs.requestCount ∧
    d2.cs.cachedRequests = d1.cs.cachedRequests + 1 ∧
    d2.cs.cache = d1.cs.cache := by
  have hck : ckOf "GET" url true kwargs = some (cacheKeyOf url kwargs) := by
    simp [ckOf, get_upper_eq]
  simp only [makeRequest, hmiss, hck]
  simp only [requestLoop, netPop, hnet, hok, if_pos, hck]
  simp only [cacheProbe, hck, cacheSet, cacheLookup, if_pos rfl]
  simp [hok, hfresh]

/-- witness for `c3_cache_hit_second_read`: a 200 `GET` followed by the
same read 100 seconds later (TTL 300) is served from the cache. -/
theorem c3_cache_hit_second_read_witness :
    let d1 := makeRequest "GET" "http://x" true .fnil { username := "u" }
      { now := 0, net := [.resp ⟨200, none, [9]⟩] }
    let d2 := makeRequest "GET" "http://x" true .fnil d1.cs { now := 100, net := [] }
    d2.result = some ⟨200, none, [9]⟩ ∧ d2.attempts = 0 ∧
    d2.cs.requestCount = d1.cs.requestCount ∧
    d2.cs.cachedRequests = d1.cs.cachedRequests + 1 := by
  have h := c3_cache_hit_second_read "http://x" .fnil { username := "u" }
    { now := 0, net := [.resp ⟨200, none, [9]⟩] } { now := 100, net := [] }
    ⟨200, none, [9]⟩ [] rfl rfl (by decide) (by decide)
  exact ⟨h.2.2.1, h.2.2.2.1, h.2.2.2.2.2.1, h.2.2.2.2.2.2.1⟩

/-! ### Helper lemmas about `_make_request` -/

/-- with no cache key, the retry loop never touches the cache -/
theorem requestLoop_none_cache (m u : String) :
    ∀ fuel attempt cs env,
      (requestLoop m u none fuel attempt cs env).cs.cache = cs.cache := by
  intro fuel
  induction fuel with
  | zero => intro attempt cs env; rfl
  | succ n ih =>
    intro attempt cs env
    simp only [requestLoop, netPop]
    cases hnet : env.net with
    | nil => rfl
    | cons o rest =>
      cases o with
      | resp r =>
        by_cases h1 : r.status < 400 <;> by_cases h2 : r.status = 401 <;>
          by_cases h3 : r.status = 403 <;> by_cases h4 : retryable r.status = true <;>
          by_cases h5 : 0 < n <;> simp [h1, h2, h3, h4, h5, ih]
      | timeout => by_cases h5 : 0 < n <;> simp [h5, ih]
      | connErr => by_cases h5 : 0 < n <;> simp [h5, ih]
      | exn => rfl

/-- an uncached call never touches the cache -/
theorem makeRequest_noCache_cache (m u : String) (kwargs : PyFields)
    (cs : ClientState) (env : Env) :
    (makeRequest m u false kwargs cs env).cs.cache = cs.cache := by
  have hmiss : cacheProbe cs env m u false kwargs = none := rfl
  have hck : ckOf m u false kwargs = none := rfl
  simp only [makeRequest, hmiss, hck]
  exact requestLoop_none_cache m u 3 0 cs env

/-- an uncached call whose first oracle outcome is a non-retryable response
returns it after one attempt -/
theorem makeRequest_noCache_resp (m u : String) (kwargs : PyFields)
    (cs : ClientState) (env : Env) (r : Response) (rest : List NetOutcome)
    (hnet : env.net = .resp r :: rest) (hr : retryable r.status = false) :
    makeRequest m u false kwargs cs env =
      ⟨some r, { cs with requestCount := cs.requestCount + 1 },
        { env with net := rest, log := env.log ++ [(m, u)] }, [], 1⟩ := by
  have hmiss : cacheProbe cs env m u false kwargs = none := rfl
  have hck : ckOf m u false kwargs = none := rfl
  simp only [makeRequest, hmiss, hck]
  simp only [requestLoop, netPop, hnet]
  by_cases h1 : r.status < 400 <;> by_cases h2 : r.status = 401 <;>
    by_cases h3 : r.status = 403 <;> simp [h1, h2, h3, hr]

/-- an uncached call whose first oracle outcome is an unexpected exception
fails immediately -/
theorem makeRequest_noCache_exn (m u : String) (kwargs : PyFields)
    (cs : ClientState) (env : Env) (rest : List NetOutcome)
    (hnet : env.net = .exn :: rest) :
    makeRequest m u false kwargs cs env =
      ⟨none, { cs with requestCount := cs.requestCount + 1 },
        { env with net := rest, log := env.log ++ [(m, u)] }, [], 1⟩ := by
  have hmiss : cacheProbe cs env m u false kwargs = none := rfl
  have hck : ckOf m u false kwargs = none := rfl
  simp only [makeRequest, hmiss, hck]
  simp [requestLoop, netPop, hnet]

/-- a cached `GET` that misses the cache and receives a `< 400` response
returns it after one attempt and stores it under the request's key -/
theorem makeRequest_get_ok (u : String) (kwargs : PyFields)
    (cs : ClientState) (env : Env) (r : Response) (rest : List NetOutcome)
    (hmiss : cacheProbe cs env "GET" u true kwargs = none)
    (hnet : env.net = .resp r :: rest) (hok : r.status < 400) :
    makeRequest "GET" u true kwargs cs env =
      ⟨some r,
        { cs with requestCount := cs.requestCount + 1,
                  cache := cacheSet cs.cache (cacheKeyOf u kwargs) (.respVal r) env.now },
        { env with net := rest, log := env.log ++ [("GET", u)] }, [], 1⟩ := by
  have hck : ckOf "GET" u true kwargs = some (cacheKeyOf u kwargs) := by
    simp [ckOf, get_upper_eq]
  simp only [makeRequest, hmiss, hck]
  simp only [requestLoop, netPop, hnet]
  simp [hok]

/-- a cached `GET` that misses the cache and receives a non-retryable
`≥ 400` response returns it after one attempt without storing anything -/
theorem makeRequest_get_err (u : String) (kwargs : PyFields)
    (cs : ClientState) (env : Env) (r : Response) (rest : List NetOutcome)
    (hmiss : cacheProbe cs env "GET" u true kwargs = none)
    (hnet : env.net = .resp r :: rest) (hok : ¬ r.status < 400)
    (hr : retryable r.status = false) :
    makeRequest "GET" u true kwargs cs env =
      ⟨some r, { cs with requestCount := cs.requestCount + 1 },
        { env with net := rest, log := env.log ++ [("GET", u)] }, [], 1⟩ := by
  have hck : ckOf "GET" u true kwargs = some (cacheKeyOf u kwargs) := by
    simp [ckOf, get_upper_eq]
  simp only [makeRequest, hmiss, hck]
  simp only [requestLoop, netPop, hnet]
  by_cases h2 : r.status = 401 <;> by_cases h3 : r.status = 403 <;>
    simp [hok, h2, h3, hr]

/-- a cached `GET` that misses the cache and hits an unexpected exception
fails immediately -/
theorem makeRequest_get_exn (u : String) (kwargs : PyFields)
    (cs : ClientState) (env : Env) (rest : List NetOutcome)
    (hmiss : cacheProbe cs env "GET" u true kwargs = none)
    (hnet : env.net = .exn :: rest) :
    makeRequest "GET" u true kwargs cs env =
      ⟨none, { cs with requestCount := cs.requestCount + 1 },
        { env with net := rest, log := env.log ++ [("GET", u)] }, [], 1⟩ := by
  have hck : ckOf "GET" u true kwargs = some (cacheKeyOf u kwargs) := by
    simp [ckOf, get_upper_eq]
  simp only [makeRequest, hmiss, hck]
  simp [requestLoop, netPop, hnet]

/-- `_update_existing_file` never touches the response cache (all of its
requests are `use_cache=False`) -/
theorem updateExistingFile_cache_eq (repo path : String) (content : List Nat)
    (message : String) (cs : ClientState) (env : Env) :
    (updateExistingFile repo path content message cs env).2.1.cache = cs.cache := by
  unfold updateExistingFile
  rcases hgr : (makeRequest "GET" (contentsUrl cs repo path) false .fnil cs env).result
    with _ | gr
  · simp only [hgr]
    simp [makeRequest_noCache_cache]
  · simp only [hgr]
    by_cases h2 : gr.status = 200
    · simp only [h2, if_true]
      rcases hb : gr.body >>= (pyIndex · "sha") with _ | sha
      · simp [hb, makeRequest_noCache_cache]
      · simp only [hb]
        split
        · next pr hpr =>
          by_cases hp2 : pr.status = 200
          · simp only [hp2, if_true]
            split <;> simp [makeRequest_noCache_cache]
          · simp [hp2, makeRequest_noCache_cache]
        · simp [makeRequest_noCache_cache]
    · simp [h2, makeRequest_noCache_cache]

/-- `upload_file` never touches the response cache -/
theorem uploadFile_cache_eq (repo path : String) (content : List Nat)
    (message : String) (cs : ClientState) (env : Env) :
    (uploadFile repo path content message cs env).2.1.cache = cs.cache := by
  simp only [uploadFile]
  split
  · simp [makeRequest_noCache_cache]
  · next r hr =>
    by_cases h1 : r.status = 201
    · simp only [h1, if_true]
      split <;> simp [makeRequest_noCache_cache]
    · by_cases h4 : r.status = 422 <;>
        simp [h1, h4, makeRequest_noCache_cache, updateExistingFile_cache_eq]

/-- `delete_file` never touches the response cache -/
theorem deleteFile_cache_eq (repo path sha message : String)
    (cs : ClientState) (env : Env) :
    (deleteFile repo path sha message cs env).2.1.cache = cs.cache := by
  simp only [deleteFile]
  split <;> simp [makeRequest_noCache_cache]

/-- C4, counterexample.  The claim says every mutating operation
invalidates the cache entries under the mutated resource's namespace.  But
`upload_file` invalidates nothing: after a cached download of
`r/f.txt` (content `"old"`, bytes `[111, 108, 100]`), a successful upload
of new content `[1, 2, 3]` to the same path, and a second download within
the TTL window, the second download is served from the cache with zero
network activity (empty log, untouched oracle) and still returns the
pre-mutation bytes. -/
theorem c4_counterexample :
    let fiOld : PyVal := .pdict (.fcons "type" (.pstr "file")
      (.fcons "content" (.pstr "b2xk") .fnil))
    let s1 := downloadFile "r" "f.txt" { username := "u" }
      { now := 0, net := [.resp ⟨200, some fiOld, []⟩] }
    let s2 := uploadFile "r" "f.txt" [1, 2, 3] "m" s1.2.1
      { now := 50, net := [.resp ⟨201, some (.pdict .fnil), []⟩] }
    let s3 := downloadFile "r" "f.txt" s2.2.1 { now := 100, net := [] }
    s1.1 = some [111, 108, 100] ∧
    s2.1.isSome = true ∧
    s3.1 = some [111, 108, 100] ∧
    ¬ s3.1 = some [1, 2, 3] ∧
    s3.2.2.log = [] ∧
    s3.2.2.net.length = 0 := by
  decide

/-- C4, amended: only repository creation invalidates cache entries — a
successful `create_repo` removes exactly the `repo_`-prefixed entries —
while the file-mutating operations `upload_file` and `delete_file` leave
the response cache entirely unchanged, so a subsequent cached read of a
mutated file can return pre-mutation data. -/
theorem c4_invalidation_amended :
    (∀ repo path content message cs env,
      (uploadFile repo path content message cs env).2.1.cache = cs.cache) ∧
    (∀ repo path sha message cs env,
      (deleteFile repo path sha message cs env).2.1.cache = cs.cache) ∧
    (∀ name priv cs env (r : Response) rest info,
      env.net = .resp r :: rest → r.status = 201 → r.body = some info →
      (createRepo name priv cs env).1 = some info ∧
      (createRepo name priv cs env).2.1.cache =
        cs.cache.filter fun e => ¬ e.1.startsWith "repo_") := by
  refine ⟨uploadFile_cache_eq, deleteFile_cache_eq, ?_⟩
  intro name priv cs env r rest info hnet h201 hbody
  have hr : retryable r.status = false := by simp [retryable, h201]
  have hd := makeRequest_noCache_resp "POST" (baseUrl ++ "/user/repos")
    (.fcons "json" (.pdict (.fcons "name" (.pstr name)
      (.fcons "private" (.pbool priv) (.fcons "auto_init" (.pbool true) .fnil)))) .fnil)
    cs env r rest hnet hr
  unfold createRepo
  simp [hd, h201, hbody, clearRepoCache]

/-- witness for `c4_invalidation_amended`: a concrete successful
`create_repo` clears the `repo_`-prefixed entries. -/
theorem c4_invalidation_amended_witness :
    (createRepo "r" false { username := "u" }
      { now := 0, net := [.resp ⟨201, some (.pdict .fnil), []⟩] }).1
      = some (.pdict .fnil) ∧
    (createRepo "r" false { username := "u" }
      { now := 0, net := [.resp ⟨201, some (.pdict .fnil), []⟩] }).2.1.cache = [] := by
  have h := c4_invalidation_amended.2.2 "r" false { username := "u" }
    { now := 0, net := [.resp ⟨201, some (.pdict .fnil), []⟩] }
    ⟨201, some (.pdict .fnil), []⟩ [] (.pdict .fnil) rfl rfl rfl
  exact ⟨h.1, h.2⟩

/-- C5: `upload_file` write disambiguation.  (a) Uploading to a path that
does not yet exist performs a single create `PUT` (one physical request,
no revision hash) and returns the remote metadata of the `201` response.
(b) When the create is answered with a `422` conflict, the client performs
a metadata `GET` (uncached — the conclusion holds for an arbitrary cache
state and the `GET` consumes the oracle) to obtain the current `sha` and
reissues the `PUT`, returning its body on `200`.  (c) If the metadata
fetch fails (`404`), the upload fails.  (d) If the second write conflicts
again (`422`), the upload fails. -/
theorem c5_upload_write_disambiguation :
    (∀ repo path content message cs env (r : Response) rest info,
      env.net = .resp r :: rest → r.status = 201 → r.body = some info →
      (uploadFile repo path content message cs env).1 = some info ∧
      (uploadFile repo path content message cs env).2.2.net = rest ∧
      (uploadFile repo path content message cs env).2.2.log =
        env.log ++ [("PUT", contentsUrl cs repo path)]) ∧
    (∀ repo path content message cs env (r1 r2 r3 : Response) rest fi shaVal b,
      env.net = .resp r1 :: .resp r2 :: .resp r3 :: rest →
      r1.status = 422 → r2.status = 200 → r2.body = some fi →
      pyIndex fi "sha" = some shaVal → r3.status = 200 → r3.body = some b →
      (uploadFile repo path content message cs env).1 = some b ∧
      (uploadFile repo path content message cs env).2.2.net = rest ∧
      (uploadFile repo path content message cs env).2.2.log =
        env.log ++ [("PUT", contentsUrl cs repo path), ("GET", contentsUrl cs repo path),
          ("PUT", contentsUrl cs repo path)]) ∧
    (∀ repo path content message cs env (r1 r2 : Response) rest,
      env.net = .resp r1 :: .resp r2 :: rest →
      r1.status = 422 → r2.status = 404 →
      (uploadFile repo path content message cs env).1 = none ∧
      (uploadFile repo path content message cs env).2.2.net = rest) ∧
    (∀ repo path content message cs env (r1 r2 r3 : Response) rest fi shaVal,
      env.net = .resp r1 :: .resp r2 :: .resp r3 :: rest →
      r1.status = 422 → r2.status = 200 → r2.body = some fi →
      pyIndex fi "sha" = some shaVal → r3.status = 422 →
      (uploadFile repo path content message cs env).1 = none ∧
      (uploadFile repo path content message cs env).2.2.net = rest) := by
  refine ⟨?_, ?_, ?_, ?_⟩
  · intro repo path content message cs env r rest info hnet h201 hbody
    simp [uploadFile, makeRequest, cacheProbe, ckOf, requestLoop, netPop, hnet, h201, hbody]
  · intro repo path content message cs env r1 r2 r3 rest fi shaVal b hnet h422 h200 hfi hsha
      hp200 hpb
    simp [uploadFile, updateExistingFile, makeRequest, cacheProbe, ckOf, requestLoop, netPop,
      retryable, contentsUrl, hnet, h422, h200, hfi, hsha, hp200, hpb]
  · intro repo path content message cs env r1 r2 rest hnet h422 h404
    simp [uploadFile, updateExistingFile, makeRequest, cacheProbe, ckOf, requestLoop, netPop,
      retryable, contentsUrl, hnet, h422, h404]
  · intro repo path content message cs env r1 r2 r3 rest fi shaVal hnet h422 h200 hfi hsha hp422
    simp [uploadFile, updateExistingFile, makeRequest, cacheProbe, ckOf, requestLoop, netPop,
      retryable, contentsUrl, hnet, h422, h200, hfi, hsha, hp422]

/-- witness for `c5_upload_write_disambiguation`: a fresh path is created
with one `PUT`; an existing path triggers `PUT`-conflict, `GET` for the
`sha`, and a second `PUT` whose body is returned. -/
theorem c5_upload_write_disambiguation_witness :
    ((uploadFile "r" "f.txt" [1] "m" { username := "u" }
      { now := 0, net := [.resp ⟨201, some (.pstr "meta1"), []⟩] }).1 = some (.pstr "meta1") ∧
     (uploadFile "r" "f.txt" [1] "m" { username := "u" }
      { now := 0, net := [.resp ⟨201, some (.pstr "meta1"), []⟩] }).2.2.log =
        [("PUT", "https://api.github.com/repos/u/r/contents/f.txt")]) ∧
    ((uploadFile "r" "f.txt" [1] "m" { username := "u" }
      { now := 0, net := [.resp ⟨422, none, []⟩,
        .resp ⟨200, some (.pdict (.fcons "sha" (.pstr "abc") .fnil)), []⟩,
        .resp ⟨200, some (.pstr "meta2"), []⟩] }).1 = some (.pstr "meta2") ∧
     (uploadFile "r" "f.txt" [1] "m" { username := "u" }
      { now := 0, net := [.resp ⟨422, none, []⟩,
        .resp ⟨200, some (.pdict (.fcons "sha" (.pstr "abc") .fnil)), []⟩,
        .resp ⟨200, some (.pstr "meta2"), []⟩] }).2.2.net = []) := by
  have ha := c5_upload_write_disambiguation.1 "r" "f.txt" [1] "m" { username := "u" }
    { now := 0, net := [.resp ⟨201, some (.pstr "meta1"), []⟩] }
    ⟨201, some (.pstr "meta1"), []⟩ [] (.pstr "meta1") rfl rfl rfl
  have hb := c5_upload_write_disambiguation.2.1 "r" "f.txt" [1] "m" { username := "u" }
    { now := 0, net := [.resp ⟨422, none, []⟩,
      .resp ⟨200, some (.pdict (.fcons "sha" (.pstr "abc") .fnil)), []⟩,
      .resp ⟨200, some (.pstr "meta2"), []⟩] }
    ⟨422, none, []⟩ ⟨200, some (.pdict (.fcons "sha" (.pstr "abc") .fnil)), []⟩
    ⟨200, some (.pstr "meta2"), []⟩ [] (.pdict (.fcons "sha" (.pstr "abc") .fnil))
    (.pstr "abc") (.pstr "meta2") rfl rfl rfl rfl rfl rfl rfl
  exact ⟨⟨ha.1, by simpa using ha.2.2⟩, ⟨hb.1, hb.2.1⟩⟩

/-- C6, counterexample.  After `M = 2` total calls of which `K = 1` was
served from the cache, the snapshot reports `totalRequests = 1`,
`cachedRequests = 1` and `hitRate = 1` — but the claim predicts
`hitRate = K / M = 1/2`. -/
theorem c6_counterexample :
    let d1 := makeRequest "GET" "http://x" true .fnil { username := "u" }
      { now := 0, net := [.resp ⟨200, none, [9]⟩] }
    let d2 := makeRequest "GET" "http://x" true .fnil d1.cs { now := 1, net := [] }
    (getApiUsageStats d2.cs).totalRequests = 1 ∧
    (getApiUsageStats d2.cs).cachedRequests = 1 ∧
    (getApiUsageStats d2.cs).hitRate = 1 ∧
    ¬ ((1 : ℚ) = 1 / 2) := by
  refine ⟨by decide, by decide, ?_, by norm_num⟩
  have hc : (makeRequest "GET" "http://x" true .fnil (makeRequest "GET" "http://x" true .fnil
      { username := "u" } { now := 0, net := [.resp ⟨200, none, [9]⟩] }).cs
      { now := 1, net := [] }).cs.cachedRequests = 1 := by decide
  have hr : (makeRequest "GET" "http://x" true .fnil (makeRequest "GET" "http://x" true .fnil
      { username := "u" } { now := 0, net := [.resp ⟨200, none, [9]⟩] }).cs
      { now := 1, net := [] }).cs.requestCount = 1 := by decide
  show (getApiUsageStats _).hitRate = 1
  rw [getApiUsageStats, hc, hr]
  norm_num

/-- C6, amended: after `M` total calls of which `K` were served from
cache (each non-cached call making one physical attempt), the snapshot
reports `cachedRequests = K`, `totalRequests = M - K`, and
`hitRate = K / (M - K)` — the cached-to-**network** ratio, not `K / M` —
with `hitRate = 0` when `totalRequests = 0`. -/
theorem c6_hit_rate_amended (M K : Nat) (hKM : K ≤ M) (cs : ClientState)
    (hrc : cs.requestCount = M - K) (hcr : cs.cachedRequests = K) :
    (getApiUsageStats cs).totalRequests = M - K ∧
    (getApiUsageStats cs).cachedRequests = K ∧
    (getApiUsageStats cs).hitRate =
      if K < M then (K : ℚ) / ((M : ℚ) - (K : ℚ)) else 0 := by
  refine ⟨by simp [getApiUsageStats, hrc], by simp [getApiUsageStats, hcr], ?_⟩
  simp only [getApiUsageStats, hrc, hcr]
  by_cases h : K < M
  · have h0 : 0 < M - K := Nat.sub_pos_of_lt h
    rw [if_pos h0, if_pos h, Nat.cast_sub hKM]
  · have h0 : M - K = 0 := by omega
    simp [h0, h]

/-- witness for `c6_hit_rate_amended` at `M = 2`, `K = 1`. -/
theorem c6_hit_rate_amended_witness :
    (getApiUsageStats ⟨"u", [], 1, 1, 300⟩).totalRequests = 1 ∧
    (getApiUsageStats ⟨"u", [], 1, 1, 300⟩).hitRate =
      if 1 < 2 then ((1 : Nat) : ℚ) / (((2 : Nat) : ℚ) - ((1 : Nat) : ℚ)) else 0 := by
  have h := c6_hit_rate_amended 2 1 (by decide) ⟨"u", [], 1, 1, 300⟩ rfl rfl
  exact ⟨h.1, h.2.2⟩

/-- C7: `download_file` fallback behaviour, for a metadata fetch that
succeeds (`200`).  (a) Metadata marking a non-file type fails without
attempting either content path (exactly the one metadata request is made).
(b0) With a truthy `download_url`, the content is fetched from that URL.
(b1) That raw fetch has its own bounded retry, independent of the metadata
fetch: a retryable raw response is retried and the next `200` returned.
(c) With `download_url` absent or `None`, the inline base64 `content`
payload is decoded and returned. -/
theorem c7_download_fallback :
    (∀ repo path cs env (r : Response) rest fi,
      cacheProbe cs env "GET" (contentsUrl cs repo path) true .fnil = none →
      env.net = .resp r :: rest → r.status = 200 → r.body = some fi →
      pyEqStr (pyGet fi "type") "file" = false →
      (downloadFile repo path cs env).1 = none ∧
      (downloadFile repo path cs env).2.2.net = rest ∧
      (downloadFile repo path cs env).2.2.log =
        env.log ++ [("GET", contentsUrl cs repo path)]) ∧
    (∀ repo path cs env (r ra : Response) rest fi u,
      cacheProbe cs env "GET" (contentsUrl cs repo path) true .fnil = none →
      env.net = .resp r :: .resp ra :: rest → r.status = 200 → r.body = some fi →
      pyEqStr (pyGet fi "type") "file" = true →
      pyGet fi "download_url" = some (.pstr u) → u ≠ "" →
      ra.status = 200 →
      (downloadFile repo path cs env).1 = some ra.content ∧
      (downloadFile repo path cs env).2.2.net = rest ∧
      (downloadFile repo path cs env).2.2.log =
        env.log ++ [("GET", contentsUrl cs repo path), ("GET", u)]) ∧
    (∀ repo path cs env (r ra rb : Response) rest fi u,
      cacheProbe cs env "GET" (contentsUrl cs repo path) true .fnil = none →
      env.net = .resp r :: .resp ra :: .resp rb :: rest → r.status = 200 → r.body = some fi →
      pyEqStr (pyGet fi "type") "file" = true →
      pyGet fi "download_url" = some (.pstr u) → u ≠ "" →
      retryable ra.status = true → rb.status = 200 →
      (downloadFile repo path cs env).1 = some rb.content ∧
      (downloadFile repo path cs env).2.2.net = rest) ∧
    (∀ repo path cs env (r : Response) rest fi c bytes,
      cacheProbe cs env "GET" (contentsUrl cs repo path) true .fnil = none →
      env.net = .resp r :: rest → r.status = 200 → r.body = some fi →
      pyEqStr (pyGet fi "type") "file" = true →
      (pyGet fi "download_url" = none ∨ pyGet fi "download_url" = some .pnone) →
      pyGet fi "content" = some (.pstr c) → c ≠ "" →
      b64Decode c = some bytes →
      (downloadFile repo path cs env).1 = some bytes ∧
      (downloadFile repo path cs env).2.2.net = rest) := by
  refine ⟨?_, ?_, ?_, ?_⟩
  · intro repo path cs env r rest fi hmiss hnet h200 hfi htype
    have hd := makeRequest_get_ok (contentsUrl cs repo path) .fnil cs env r rest hmiss hnet
      (by omega)
    simp [downloadFile, hd, h200, hfi, htype]
  · intro repo path cs env r ra rest fi u hmiss hnet h200 hfi htype hdl hu h200a
    have hd := makeRequest_get_ok (contentsUrl cs repo path) .fnil cs env r
      (.resp ra :: rest) hmiss hnet (by omega)
    simp [downloadFile, hd, h200, hfi, htype, hdl, pyTruthy, hu, downloadFromRawUrl,
      rawLoop, netPop, h200a]
  · intro repo path cs env r ra rb rest fi u hmiss hnet h200 hfi htype hdl hu hra h200b
    have hd := makeRequest_get_ok (contentsUrl cs repo path) .fnil cs env r
      (.resp ra :: .resp rb :: rest) hmiss hnet (by omega)
    have hne : ¬ ra.status = 200 := by
      intro h
      rw [h] at hra
      simp [retryable] at hra
    simp [downloadFile, hd, h200, hfi, htype, hdl, pyTruthy, hu, downloadFromRawUrl,
      rawLoop, netPop, hne, hra, h200b]
  · intro repo path cs env r rest fi c bytes hmiss hnet h200 hfi htype hdl hc hcne hbytes
    have hd := makeRequest_get_ok (contentsUrl cs repo path) .fnil cs env r rest hmiss hnet
      (by omega)
    rcases hdl with hdl | hdl <;>
      simp [downloadFile, downloadFile.downloadInline, hd, h200, hfi, htype, hdl, pyTruthy,
        hc, hcne, hbytes]

/-- witness for `c7_download_fallback`: a directory listing fails without a
content fetch; an inline base64 payload `"aGk="` decodes to `"hi"`. -/
theorem c7_download_fallback_witness :
    ((downloadFile "r" "d" { username := "u" }
      { now := 0, net := [.resp ⟨200, some (.pdict (.fcons "type" (.pstr "dir") .fnil)), []⟩] }).1
      = none) ∧
    ((downloadFile "r" "f.txt" { username := "u" }
      { now := 0, net := [.resp ⟨200, some (.pdict (.fcons "type" (.pstr "file")
        (.fcons "content" (.pstr "aGk=") .fnil))), []⟩] }).1 = some [104, 105]) := by
  have ha := c7_download_fallback.1 "r" "d" { username := "u" }
    { now := 0, net := [.resp ⟨200, some (.pdict (.fcons "type" (.pstr "dir") .fnil)), []⟩] }
    ⟨200, some (.pdict (.fcons "type" (.pstr "dir") .fnil)), []⟩ []
    (.pdict (.fcons "type" (.pstr "dir") .fnil)) rfl rfl rfl rfl (by decide)
  have hc := c7_download_fallback.2.2.2 "r" "f.txt" { username := "u" }
    { now := 0, net := [.resp ⟨200, some (.pdict (.fcons "type" (.pstr "file")
      (.fcons "content" (.pstr "aGk=") .fnil))), []⟩] }
    ⟨200, some (.pdict (.fcons "type" (.pstr "file")
      (.fcons "content" (.pstr "aGk=") .fnil))), []⟩ []
    (.pdict (.fcons "type" (.pstr "file") (.fcons "content" (.pstr "aGk=") .fnil)))
    "aGk=" [104, 105] rfl rfl rfl rfl (by decide) (Or.inl rfl) rfl (by decide) (by decide)
  exact ⟨ha.1, hc.1⟩

/-- C8, counterexample.  The claim says every two logically-identical read
requests map to the same cache key (a canonicalized-request digest).  But
the key is `md5(url + str(kwargs))` over the *stringified, order-sensitive*
keyword arguments: the same keyword arguments passed in a different order —
the identical Python call, since keyword-argument dicts compare equal
regardless of insertion order — produce different keys. -/
theorem c8_counterexample :
    (PyFields.toList (.fcons "a" (.pint 1) (.fcons "b" (.pint 2) .fnil))).Perm
      (PyFields.toList (.fcons "b" (.pint 2) (.fcons "a" (.pint 1) .fnil))) ∧
    cacheKeyOf "https://api.github.com/x" (.fcons "a" (.pint 1) (.fcons "b" (.pint 2) .fnil)) ≠
      cacheKeyOf "https://api.github.com/x" (.fcons "b" (.pint 2) (.fcons "a" (.pint 1) .fnil)) := by
  constructor
  · exact List.Perm.swap ("b", PyVal.pint 2) ("a", PyVal.pint 1) []
  · decide

/-- C8, amended: the cache key is the md5 hex digest of the URL
concatenated with the Python string form of the keyword arguments, so it
depends only on that stringified form: requests whose stringified forms
coincide (in particular, same URL and identically-ordered kwargs) share a
key, while logically identical requests whose kwargs differ in order can
map to different keys — a position-dependent hash of stringified
arguments, not a canonicalized-request digest. -/
theorem c8_cache_key_amended (u1 u2 : String) (k1 k2 : PyFields)
    (h : u1 ++ pyRepr (.pdict k1) = u2 ++ pyRepr (.pdict k2)) :
    cacheKeyOf u1 k1 = cacheKeyOf u2 k2 := by
  unfold cacheKeyOf
  rw [h]

/-- witness for `c8_cache_key_amended` -/
theorem c8_cache_key_amended_witness :
    cacheKeyOf "https://api.github.com/x" (.fcons "a" (.pint 1) .fnil) =
      cacheKeyOf "https://api.github.com/x" (.fcons "a" (.pint 1) .fnil) :=
  c8_cache_key_amended "https://api.github.com/x" "https://api.github.com/x"
    (.fcons "a" (.pint 1) .fnil) (.fcons "a" (.pint 1) .fnil) rfl

/-- C9, counterexample.  The claim says no cache entry written through one
client instance is observable through another.  But the `cache_result`
decorator's dict is created once at class-definition time and its key
ignores `self`: after instance `alice` lists `r`'s files over the network,
a *different* instance `bob` calling `list_files` with the same arguments
is served alice's cached listing with zero network activity, zero requests
of its own, and an untouched instance state. -/
theorem c9_counterexample :
    let csA : ClientState := { username := "alice" }
    let csB : ClientState := { username := "bob" }
    let riA : PyVal := .pdict (.fcons "default_branch" (.pstr "main") .fnil)
    let files : PyVal := .plist (.cons (.pstr "f.txt") .nil)
    let sA := listFiles [] "r" "" csA
      { now := 0, net := [.resp ⟨200, some riA, []⟩, .resp ⟨200, some files, []⟩] }
    let sB := listFiles sA.2.1 "r" "" csB { now := 10, net := [] }
    pyRepr sA.1 = "[\x27f.txt\x27]" ∧
    pyRepr sB.1 = "[\x27f.txt\x27]" ∧
    sB.2.2.1.requestCount = 0 ∧
    sB.2.2.1.cachedRequests = 0 ∧
    sB.2.2.1.cache.length = 0 ∧
    sB.2.2.2.log = [] := by
  set_option maxRecDepth 4096 in decide

/-- C9, amended: the `_make_request` response cache and the usage counters
are per-instance values, but the `cache_result` decorator caches
(`get_user_repos`, `list_files`) are process-wide and shared across client
instances — any instance finding a fresh shared entry is served it with
its own state untouched — and `close()` destroys neither the caches nor
the counters. -/
theorem c9_ownership_amended :
    (∀ g repo path cs env (v : PyVal) t,
      decLookup g (listFilesKey repo path) = some (v, t) →
      env.now - t < 180 →
      listFiles g repo path cs env = (v, g, cs, env)) ∧
    (∀ cs, closeClient cs = cs ∧ (closeClient cs).cache = cs.cache ∧
      getApiUsageStats (closeClient cs) = getApiUsageStats cs) := by
  constructor
  · intro g repo path cs env v t hl hf
    simp [listFiles, hl, hf]
  · intro cs
    exact ⟨rfl, rfl, rfl⟩

/-- witness for `c9_ownership_amended`: an instance that never issued any
request is served a fresh shared decorator entry unchanged. -/
theorem c9_ownership_amended_witness :
    listFiles [(listFilesKey "r" "", .pstr "cached", 0)] "r" "" { username := "bob" }
      { now := 10, net := [] } =
      (.pstr "cached", [(listFilesKey "r" "", .pstr "cached", 0)], { username := "bob" },
        { now := 10, net := [] }) :=
  c9_ownership_amended.1 [(listFilesKey "r" "", PyVal.pstr "cached", 0)] "r" ""
    { username := "bob" } { now := 10, net := [] } (.pstr "cached") 0
    (by simp [decLookup]) (by decide)

/-- C10: unexpected exceptions are total at the interface.  An unexpected
exception during dispatch makes `_make_request` return `None` immediately
after that single attempt, with no backoff and no further oracle
consumption — at the start of a call and equally at any point of the retry
loop whatever budget remains — and the public operations map that failure
to their fallback values: `None` for `upload_file` and `download_file`,
`False` for `delete_file`, `[]` for `list_files`. -/
theorem c10_exception_totality :
    (∀ method url useCache kwargs cs env rest,
      cacheProbe cs env method url useCache kwargs = none →
      env.net = .exn :: rest →
      (makeRequest method url useCache kwargs cs env).result = none ∧
      (makeRequest method url useCache kwargs cs env).attempts = 1 ∧
      (makeRequest method url useCache kwargs cs env).sleeps = [] ∧
      (makeRequest method url useCache kwargs cs env).env.net = rest) ∧
    (∀ method url ck fuel attempt cs env rest,
      env.net = .exn :: rest →
      (requestLoop method url ck (fuel + 1) attempt cs env).result = none ∧
      (requestLoop method url ck (fuel + 1) attempt cs env).attempts = 1) ∧
    (∀ repo path content message cs env rest,
      env.net = .exn :: rest →
      (uploadFile repo path content message cs env).1 = none) ∧
    (∀ repo path sha message cs env rest,
      env.net = .exn :: rest →
      (deleteFile repo path sha message cs env).1 = false) ∧
    (∀ repo path cs env rest,
      cacheProbe cs env "GET" (contentsUrl cs repo path) true .fnil = none →
      env.net = .exn :: rest →
      (downloadFile repo path cs env).1 = none) ∧
    (∀ g repo path cs env rest,
      decLookup g (listFilesKey repo path) = none →
      cacheLookup cs.cache ("repo_" ++ repo) = none →
      env.net = .exn :: rest →
      (listFiles g repo path cs env).1 = pyEmptyList) := by
  refine ⟨?_, ?_, ?_, ?_, ?_, ?_⟩
  · intro method url useCache kwargs cs env rest hmiss hnet
    simp [makeRequest, hmiss, requestLoop, netPop, hnet]
  · intro method url ck fuel attempt cs env rest hnet
    simp [requestLoop, netPop, hnet]
  · intro repo path content message cs env rest hnet
    have hd := makeRequest_noCache_exn "PUT" (contentsUrl cs repo path)
      (.fcons "json" (.pdict (.fcons "message" (.pstr message)
        (.fcons "content" (.pstr (b64Encode content)) .fnil))) .fnil) cs env rest hnet
    simp [uploadFile, hd]
  · intro repo path sha message cs env rest hnet
    have hd := makeRequest_noCache_exn "DELETE" (contentsUrl cs repo path)
      (.fcons "json" (.pdict (.fcons "message" (.pstr message)
        (.fcons "sha" (.pstr sha) .fnil))) .fnil) cs env rest hnet
    simp [deleteFile, hd]
  · intro repo path cs env rest hmiss hnet
    have hd := makeRequest_get_exn (contentsUrl cs repo path) .fnil cs env rest hmiss hnet
    simp [downloadFile, hd]
  · intro g repo path cs env rest hlk hrc hnet
    have hd := makeRequest_noCache_exn "GET" (baseUrl ++ "/repos/" ++ cs.username ++ "/" ++ repo)
      .fnil cs env rest hnet
    simp [listFiles, listFilesBody, getRepoByName, hlk, hrc, hd]

/-- witness for `c10_exception_totality`: concrete exceptional dispatches
produce the operations' fallback values after a single attempt. -/
theorem c10_exception_totality_witness :
    ((makeRequest "PUT" "http://x" false .fnil { username := "u" }
      { now := 0, net := [.exn, .exn] }).result = none ∧
     (makeRequest "PUT" "http://x" false .fnil { username := "u" }
      { now := 0, net := [.exn, .exn] }).attempts = 1) ∧
    (deleteFile "r" "f" "sha1" "m" { username := "u" }
      { now := 0, net := [.exn] }).1 = false ∧
    (listFiles [] "r" "" { username := "u" } { now := 0, net := [.exn] }).1 = pyEmptyList := by
  have h1 := c10_exception_totality.1 "PUT" "http://x" false .fnil { username := "u" }
    { now := 0, net := [.exn, .exn] } [.exn] rfl rfl
  have h4 := c10_exception_totality.2.2.2.1 "r" "f" "sha1" "m" { username := "u" }
    { now := 0, net := [.exn] } [] rfl
  have h6 := c10_exception_totality.2.2.2.2.2 [] "r" "" { username := "u" }
    { now := 0, net := [.exn] } [] rfl rfl rfl
  exact ⟨⟨h1.1, h1.2.1⟩, h4, h6⟩
